import Mathlib

/-!
Shallow embedding of the data-shaping core of the MLB StatShot application
(`app.py`): the player resolver, the attribute/stat translation tables, the
player-detail formatter, the stat flattening pipeline, and the order of
persistence writes in the analysis flow.  HTTP transport, the UI framework
and the database client are external collaborators; only the pure
data transformations and the control-flow order they are embedded in are
modelled here.
-/

/-! ## Basic value model

Cells of the rendered tables are Python objects that are either strings or
integers (JSON numeric counters); absence renders as the string `"N/A"`. -/

inductive Value where
  | str (s : String)
  | int (n : Int)
deriving DecidableEq, Repr

/-- `d.get(k, dflt)` on a Python dict modelled as an association list. -/
def dictGet {α : Type} (d : List (String × α)) (k : String) (dflt : α) : α :=
  match d.find? (fun kv => kv.1 == k) with
  | some kv => kv.2
  | none => dflt

/-! ## Python string primitives used by the resolver -/

/-- Drop trailing characters satisfying `p` (the trailing half of Python
`str.strip()`). -/
def dropTrailing (p : Char → Bool) : List Char → List Char
  | [] => []
  | a :: t =>
    if (dropTrailing p t).isEmpty && p a then [] else a :: dropTrailing p t

/-- Python `str.strip()`: remove leading and trailing whitespace. -/
def pyStrip (s : String) : String :=
  ⟨dropTrailing Char.isWhitespace (s.data.dropWhile Char.isWhitespace)⟩

/-- `needle` is a leading segment of `hay`. -/
def listHasPre (needle hay : List Char) : Bool :=
  match needle, hay with
  | [], _ => true
  | _ :: _, [] => false
  | a :: n, b :: h => a == b && listHasPre n h

/-- `needle` occurs as a contiguous segment of `hay` (substring containment
at the character-list level). -/
def listHasSub (needle hay : List Char) : Bool :=
  match hay with
  | [] => needle.isEmpty
  | _ :: h => listHasPre needle hay || listHasSub needle h

/-! ## Player resolver (`search_player_by_name`, app.py lines 68-79)

The source escapes all regex metacharacters of the stripped query
(`re.escape(player_name.strip())`) and then runs a case-insensitive
`str.contains` over the `fullName` column.  Escaping makes the pattern
match the literal query text, so the test is case-insensitive substring
containment of the stripped query; `na=False` is vacuous here because every
roster entry carries a `fullName` string. -/

structure RosterEntry where
  id : Nat
  fullName : String
deriving DecidableEq, Repr

/-- `"Players list is empty or unavailable."` (app.py line 70). -/
def emptyRosterMsg : String := "Players list is empty or unavailable."

/-- `f"No player found with the name '{player_name}'."` (app.py line 75);
note it interpolates the original, unstripped query. -/
def noMatchMsg (player_name : String) : String :=
  "No player found with the name \x27" ++ player_name ++ "\x27."

/-- Lowercase a string character by character (the case-folding applied by
`case=False`). -/
def lowerChars (s : String) : List Char :=
  s.data.map Char.toLower

/-- The per-entry match test of line 73: case-insensitive containment of the
stripped query in the entry's full name. -/
def nameMatches (fullName player_name : String) : Bool :=
  listHasSub (lowerChars (pyStrip player_name)) (lowerChars fullName)

/-- `search_player_by_name(players_df, player_name)` (app.py lines 68-79).
`players_df` may be `None` (modelled `none`) or empty; otherwise the first
row whose name contains the stripped query (case-insensitively) wins. -/
def search_player_by_name (players : Option (List RosterEntry))
    (player_name : String) : Option Nat × Option String :=
  match players with
  | none => (none, some emptyRosterMsg)
  | some l =>
    if l.isEmpty then (none, some emptyRosterMsg)
    else
      match l.find? (fun e => nameMatches e.fullName player_name) with
      | some e => (some e.id, none)
      | none => (none, some (noMatchMsg player_name))

/-! ## Roster endpoint URL (`get_all_players`, app.py lines 63-65)

The source builds the request URL with
`f'https://statsapi.mlb.com/api/v1/sports/1/players?season=2024'` — an
f-string with no placeholder, so the `season` argument never reaches the
URL. -/

/-- URL construction inside `get_all_players(season)`, exactly as the
source writes it. -/
def get_all_players_url (season : Nat) : String :=
  "https://statsapi.mlb.com/api/v1/sports/1/players?season=2024"

/-! ## Attribute translation table (`translations`, app.py lines 232-324) -/

/-- The static attribute-label table: 13 canonical keys, each mapped to
five language variants (English included redundantly). -/
def translations : List (String × List (String × String)) :=
  [("Full Name",
    [("English", "Full Name"), ("Spanish", "Nombre Completo"),
     ("Japanese", "フルネーム"), ("French", "Nom Complet"), ("Chinese", "全名")]),
   ("Primary Position",
    [("English", "Primary Position"), ("Spanish", "Posición Principal"),
     ("Japanese", "主なポジション"), ("French", "Position Principale"),
     ("Chinese", "主要位置")]),
   ("Jersey Number",
    [("English", "Jersey Number"), ("Spanish", "Número de Camisa"),
     ("Japanese", "ジャージ番号"), ("French", "Numéro de Maillot"),
     ("Chinese", "球衣号码")]),
   ("Birth Date",
    [("English", "Birth Date"), ("Spanish", "Fecha de Nacimiento"),
     ("Japanese", "生年月日"), ("French", "Date de Naissance"),
     ("Chinese", "出生日期")]),
   ("Current Age",
    [("English", "Current Age"), ("Spanish", "Edad Actual"),
     ("Japanese", "現在の年齢"), ("French", "Âge Actuel"), ("Chinese", "当前年龄")]),
   ("Birthplace",
    [("English", "Birthplace"), ("Spanish", "Lugar de Nacimiento"),
     ("Japanese", "出生地"), ("French", "Lieu de Naissance"), ("Chinese", "出生地")]),
   ("Height",
    [("English", "Height"), ("Spanish", "Altura"), ("Japanese", "身長"),
     ("French", "Taille"), ("Chinese", "身高")]),
   ("Weight (lbs)",
    [("English", "Weight (lbs)"), ("Spanish", "Peso (lbs)"),
     ("Japanese", "体重 (ポンド)"), ("French", "Poids (lbs)"),
     ("Chinese", "体重 (磅)")]),
   ("Active Player",
    [("English", "Active Player"), ("Spanish", "Jugador Activo"),
     ("Japanese", "現役選手"), ("French", "Joueur Actif"), ("Chinese", "现役球员")]),
   ("MLB Debut Date",
    [("English", "MLB Debut Date"), ("Spanish", "Fecha del Debut en MLB"),
     ("Japanese", "MLB デビュー日"), ("French", "Date des Débuts en MLB"),
     ("Chinese", "MLB 首秀日期")]),
   ("Bats",
    [("English", "Bats"), ("Spanish", "Batea"), ("Japanese", "打撃"),
     ("French", "Bats"), ("Chinese", "打击")]),
   ("Throws",
    [("English", "Throws"), ("Spanish", "Lanza"), ("Japanese", "投げる"),
     ("French", "Lance"), ("Chinese", "投掷")]),
   ("Nickname",
    [("English", "Nickname"), ("Spanish", "Apodo"), ("Japanese", "ニックネーム"),
     ("French", "Surnom"), ("Chinese", "昵称")])]

/-- `translate_attribute(attribute_name, language)` (app.py lines 327-328):
`translations.get(attribute_name, {}).get(language, attribute_name)`. -/
def translate_attribute (attribute_name language : String) : String :=
  dictGet (dictGet translations attribute_name []) language attribute_name

/-! ## Stat translation table (`translations_stats`, app.py lines 416-435)

Unlike the attribute table, it stores no English column: English falls
through to the canonical key. -/

/-- The static stat-label table of the source, key for key. -/
def translations_stats : List (String × List (String × String)) :=
  [("Team",
    [("Spanish", "Equipo"), ("Japanese", "チーム"), ("French", "Équipe"),
     ("Chinese", "球队")]),
   ("Player",
    [("Spanish", "Jugador"), ("Japanese", "選手"), ("French", "Joueur"),
     ("Chinese", "球员")]),
   ("League",
    [("Spanish", "Liga"), ("Japanese", "リーグ"), ("French", "Ligue"),
     ("Chinese", "联赛")]),
   ("Sport",
    [("Spanish", "Deporte"), ("Japanese", "スポーツ"), ("French", "Sport"),
     ("Chinese", "体育")]),
   ("Games Played",
    [("Spanish", "Juegos Jugados"), ("Japanese", "試合数"),
     ("French", "Matchs joués"), ("Chinese", "比赛场次")]),
   ("Ground Outs",
    [("Spanish", "Eliminaciones en Tierra"), ("Japanese", "ゴロアウト"),
     ("French", "Retirés au sol"), ("Chinese", "滚地出局")]),
   ("Air Outs",
    [("Spanish", "Eliminaciones por Aire"), ("Japanese", "フライアウト"),
     ("French", "Retirés en l\x27air"), ("Chinese", "飞球出局")]),
   ("Runs",
    [("Spanish", "Carreras"), ("Japanese", "得点"), ("French", "Points"),
     ("Chinese", "得分")]),
   ("Doubles",
    [("Spanish", "Dobles"), ("Japanese", "二塁打"), ("French", "Doubles"),
     ("Chinese", "二垒打")]),
   ("Triples",
    [("Spanish", "Triples"), ("Japanese", "三塁打"), ("French", "Triples"),
     ("Chinese", "三垒打")]),
   ("Home Runs",
    [("Spanish", "Jonrones"), ("Japanese", "本塁打"), ("French", "Circuits"),
     ("Chinese", "本垒打")]),
   ("Strike Outs",
    [("Spanish", "Ponches"), ("Japanese", "三振"),
     ("French", "Retirés sur des prises"), ("Chinese", "三振出局")]),
   ("Base On Balls",
    [("Spanish", "Bases por Bolas"), ("Japanese", "四球"),
     ("French", "But sur balles"), ("Chinese", "四坏球")]),
   ("Hits",
    [("Spanish", "Hits"), ("Japanese", "安打"), ("French", "Coups sûrs"),
     ("Chinese", "安打")]),
   ("At Bats",
    [("Spanish", "Turnos al Bate"), ("Japanese", "打数"),
     ("French", "Présences au bâton"), ("Chinese", "打席")]),
   ("Stolen Bases",
    [("Spanish", "Bases Robadas"), ("Japanese", "盗塁"),
     ("French", "But volé"), ("Chinese", "盗垒")]),
   ("RBI",
    [("Spanish", "Carreras Impulsadas"), ("Japanese", "打点"),
     ("French", "Points produits"), ("Chinese", "打点")])]

/-- `get_translated_stat(stat_name, selected_lang)` (app.py lines 438-439):
`translations_stats.get(stat_name, {}).get(selected_lang, stat_name)`. -/
def get_translated_stat (stat_name selected_lang : String) : String :=
  dictGet (dictGet translations_stats stat_name []) selected_lang stat_name

/-! ## Player detail record and formatter (`key_attributes`, app.py 331-345)

The detail payload is an untyped JSON object; every field is optional.
Nested one-field objects (`primaryPosition.name`, `batSide.description`,
`pitchHand.description`) are modelled by small records whose own field is
again optional, matching `player_info.get("primaryPosition", {}).get("name",
"N/A")`. -/

structure PositionInfo where
  name : Option String
deriving DecidableEq, Repr

structure SideInfo where
  description : Option String
deriving DecidableEq, Repr

structure PlayerInfo where
  fullName : Option String := none
  primaryPosition : Option PositionInfo := none
  primaryNumber : Option String := none
  birthDate : Option String := none
  currentAge : Option Int := none
  birthCity : Option String := none
  birthStateProvince : Option String := none
  birthCountry : Option String := none
  height : Option String := none
  weight : Option Int := none
  active : Option Bool := none
  mlbDebutDate : Option String := none
  batSide : Option SideInfo := none
  pitchHand : Option SideInfo := none
  nickName : Option String := none
deriving DecidableEq, Repr

/-- A detail record with every optional field absent. -/
def emptyPlayerInfo : PlayerInfo := {}

/-- `d.get(k, "N/A")` for an optional integer field: present values stay
integers, absence becomes the string `"N/A"`. -/
def intOrNA : Option Int → Value
  | some n => .int n
  | none => .str "N/A"

/-- The ordered 13-attribute map of app.py lines 331-345, entry for entry.
`Active Player` mirrors `"Yes" if player_info.get("active") else "No"`
(an absent or false `active` flag both yield `"No"`); `Birthplace` joins
city, state/province and country with `", "`, each part independently
defaulting to `"N/A"`. -/
def key_attributes (player_info : PlayerInfo) : List (String × Value) :=
  [("Full Name", .str (player_info.fullName.getD "N/A")),
   ("Primary Position",
    .str ((player_info.primaryPosition.bind PositionInfo.name).getD "N/A")),
   ("Jersey Number", .str (player_info.primaryNumber.getD "N/A")),
   ("Birth Date", .str (player_info.birthDate.getD "N/A")),
   ("Current Age", intOrNA player_info.currentAge),
   ("Birthplace",
    .str ((player_info.birthCity.getD "N/A") ++ ", " ++
          (player_info.birthStateProvince.getD "N/A") ++ ", " ++
          (player_info.birthCountry.getD "N/A"))),
   ("Height", .str (player_info.height.getD "N/A")),
   ("Weight (lbs)", intOrNA player_info.weight),
   ("Active Player",
    .str (match player_info.active with | some true => "Yes" | _ => "No")),
   ("MLB Debut Date", .str (player_info.mlbDebutDate.getD "N/A")),
   ("Bats", .str ((player_info.batSide.bind SideInfo.description).getD "N/A")),
   ("Throws",
    .str ((player_info.pitchHand.bind SideInfo.description).getD "N/A")),
   ("Nickname", .str (player_info.nickName.getD "N/A"))]

/-! ## Stat flattening pipeline (app.py lines 442-491) -/

structure TeamInfo where
  name : Option String
deriving DecidableEq, Repr

structure PlayerNameInfo where
  fullName : Option String
deriving DecidableEq, Repr

/-- The nested `stat` sub-record of a split; every counter is optional. -/
structure StatRec where
  gamesPlayed : Option Int
  runs : Option Int
  hits : Option Int
  homeRuns : Option Int
  stolenBases : Option Int
  rbi : Option Int
deriving DecidableEq, Repr

structure StatSplit where
  team : Option TeamInfo
  player : Option PlayerNameInfo
  stat : Option StatRec
deriving DecidableEq, Repr

structure StatGroup where
  group : Option String
  type : Option String
  splits : List StatSplit
deriving DecidableEq, Repr

/-- The `flattened_split` dict of app.py lines 457-466, in insertion
order. -/
def flattened_split (split : StatSplit) : List (String × Value) :=
  [("Team", .str ((split.team.bind TeamInfo.name).getD "N/A")),
   ("Player", .str ((split.player.bind PlayerNameInfo.fullName).getD "N/A")),
   ("Games Played", intOrNA (split.stat.bind StatRec.gamesPlayed)),
   ("Runs", intOrNA (split.stat.bind StatRec.runs)),
   ("Hits", intOrNA (split.stat.bind StatRec.hits)),
   ("Home Runs", intOrNA (split.stat.bind StatRec.homeRuns)),
   ("Stolen Bases", intOrNA (split.stat.bind StatRec.stolenBases)),
   ("RBI", intOrNA (split.stat.bind StatRec.rbi))]

/-- Column order of the DataFrame built from `cleaned_data` (the key order
of `flattened_split`). -/
def stat_table_columns : List String :=
  ["Team", "Player", "Games Played", "Runs", "Hits", "Home Runs",
   "Stolen Bases", "RBI"]

/-- `stats_df.drop(columns=["Player"])` (app.py lines 473-474). -/
def drop_player_column (cols : List String) : List String :=
  cols.filter (fun c => !(c == "Player"))

/-- One cell of the wide DataFrame: the row's value under column `c`. -/
def cellValue (row : List (String × Value)) (c : String) : Value :=
  dictGet row c (.str "N/A")

/-- `pd.melt(stats_df, var_name="Stat", value_name="Value")` (app.py line
479): stack the wide table column-major into (stat-name, value) rows. -/
def melt (cols : List String) (rows : List (List (String × Value))) :
    List (String × Value) :=
  cols.flatMap (fun c => rows.map (fun r => (c, cellValue r c)))

/-- Lines 479-482: melt the cleaned rows (Player column dropped) and
translate every cell of the `Stat` column into the selected language. -/
def stats_two_columns (rows : List (List (String × Value)))
    (language : String) : List (String × Value) :=
  (melt (drop_player_column stat_table_columns) rows).map
    (fun p => (get_translated_stat p.1 language, p.2))

/-- Line 485: the renamed column headers of the displayed two-column
table. -/
def table_headers (language : String) : String × String :=
  (get_translated_stat "Stat" language, get_translated_stat "Value" language)

/-- One visible artifact emitted while rendering a stat group. -/
inductive Display where
  | text (s : String)
  | dataframe (headers : String × String) (rows : List (String × Value))
deriving DecidableEq, Repr

/-- The `for split in stats_splits:` body (app.py lines 455-490).  The
DataFrame is rebuilt and displayed inside the split loop, from the
accumulated `cleaned_data`; the `else` branch writing
`"No data available for this group."` is guarded by `stats_df.empty`,
i.e. by the accumulator being empty — which never happens at that point
because the current split was just appended. -/
def render_splits (language : String) :
    List StatSplit → List (List (String × Value)) → List Display
  | [], _ => []
  | split :: rest, cleaned_data =>
    let cleaned_data' := cleaned_data ++ [flattened_split split]
    (if cleaned_data'.isEmpty then
       [Display.text "No data available for this group."]
     else
       [Display.dataframe (table_headers language)
          (stats_two_columns cleaned_data' language)])
    ++ render_splits language rest cleaned_data'

/-- One iteration of `for stat_group in player_stats:` (app.py lines
443-491): the title line is written unconditionally, then the splits are
processed only when `stats_splits` is non-empty — an empty splits list
renders nothing beyond the title. -/
def render_stat_group (player_full_name : String) (season : Nat)
    (language : String) (stat_group : StatGroup) : List Display :=
  Display.text ("**" ++ player_full_name ++ "** - " ++ toString season ++
      " Season Stats:")
    :: (if stat_group.splits.isEmpty then []
        else render_splits language stat_group.splits [])

/-! ## Analysis flow and persistence order (app.py lines 186-226)

After the extracted name is validated, `save_user_data` is called (line
206) and only then are the roster fetched (line 210), the player resolved
(line 217) and the details fetched (line 223).  The flow is modelled as a
function of the outcomes of the three external calls; its result is the
list of identification writes performed plus the stage at which the action
stopped. -/

/-- One identification document written by `save_user_data` (app.py lines
112-121). -/
structure UserRecord where
  email : String
  player_name : String
  language : String
deriving DecidableEq, Repr

/-- Outcomes of the external calls the analysis flow depends on. -/
structure AnalysisEnv where
  gemini_response : Option String
  roster : Option (List RosterEntry)
  details : Nat → Option (List PlayerInfo)

/-- Where the analyze action stopped. -/
inductive AnalyzeStop where
  | recognitionFailure
  | rosterUnavailable
  | resolveFault (msg : String)
  | detailFault
  | completed (player_id : Nat)
deriving DecidableEq, Repr

/-- The analyze action (app.py lines 190-226), restricted to control flow
and persistence: validate the extracted name, persist the identification
event, then fetch the roster, resolve the player and fetch the details,
stopping at the first fault.  Returns the identification writes performed
together with the stopping stage. -/
def analyze (email language : String) (env : AnalysisEnv) :
    List UserRecord × AnalyzeStop :=
  match env.gemini_response with
  | none => ([], .recognitionFailure)
  | some g =>
    if g = "" then ([], .recognitionFailure)
    else
      match env.roster with
      | none => ([⟨email, g, language⟩], .rosterUnavailable)
      | some l =>
        if l.isEmpty then ([⟨email, g, language⟩], .rosterUnavailable)
        else
          match search_player_by_name (some l) g with
          | (some player_id, _) =>
            match env.details player_id with
            | some (_ :: _) => ([⟨email, g, language⟩], .completed player_id)
            | _ => ([⟨email, g, language⟩], .detailFault)
          | (none, msg) =>
            ([⟨email, g, language⟩], .resolveFault (msg.getD ""))

/-! ## Helper lemmas -/

/-- Dropping a leading segment twice drops it once. -/
theorem dropWhile_idem (p : Char → Bool) (l : List Char) :
    (l.dropWhile p).dropWhile p = l.dropWhile p := by
  induction l with
  | nil => rfl
  | cons a t ih => cases hp : p a <;> simp [List.dropWhile_cons, hp, ih]

/-- Dropping a trailing segment twice drops it once. -/
theorem dropTrailing_idem (p : Char → Bool) (l : List Char) :
    dropTrailing p (dropTrailing p l) = dropTrailing p l := by
  induction l with
  | nil => rfl
  | cons a t ih =>
    cases h : ((dropTrailing p t).isEmpty && p a) <;>
      simp [dropTrailing, h, ih]

/-- Dropping a trailing segment preserves a clean front. -/
theorem dropWhile_dropTrailing (p : Char → Bool) (l : List Char)
    (h : l.dropWhile p = l) :
    (dropTrailing p l).dropWhile p = dropTrailing p l := by
  cases l with
  | nil => rfl
  | cons a t =>
    have hp : p a = false := by
      cases hpa : p a
      · rfl
      · rw [List.dropWhile_cons, hpa, if_pos rfl] at h
        have hlen := (List.dropWhile_sublist (p := p) (l := t)).length_le
        have := congrArg List.length h
        simp at this
        omega
    cases hdt : ((dropTrailing p t).isEmpty && p a) <;>
      simp [dropTrailing, hdt, List.dropWhile_cons, hp]

/-- Python `strip` is idempotent. -/
theorem pyStrip_idem (s : String) : pyStrip (pyStrip s) = pyStrip s := by
  unfold pyStrip
  exact congrArg String.mk
    (by rw [dropWhile_dropTrailing _ _ (dropWhile_idem _ _), dropTrailing_idem])

/-- The no-match message never coincides with the empty-roster message,
whatever the query: their first characters differ. -/
theorem noMatchMsg_ne_emptyRosterMsg (q : String) :
    noMatchMsg q ≠ emptyRosterMsg := by
  intro h
  have h2 := congrArg String.data h
  rw [noMatchMsg, String.data_append, String.data_append,
    show ("No player found with the name \x27" : String).data
        = 'N' :: ("o player found with the name \x27" : String).data from rfl,
    show emptyRosterMsg.data
        = 'P' :: ("layers list is empty or unavailable." : String).data from rfl,
    List.cons_append, List.cons_append] at h2
  injection h2 with h3 _
  exact absurd h3 (by decide)

/-- `find?` returns the first element satisfying the predicate: the list
decomposes around the hit and everything before it fails the predicate. -/
theorem find?_first {α : Type} (p : α → Bool) :
    ∀ (l : List α) (e : α), l.find? p = some e →
      ∃ l₁ l₂, l = l₁ ++ e :: l₂ ∧ p e = true ∧ ∀ x ∈ l₁, p x = false := by
  intro l
  induction l with
  | nil => intro e h; simp at h
  | cons a t ih =>
    intro e h
    cases hp : p a
    · rw [List.find?_cons_of_neg _ (by simp [hp])] at h
      obtain ⟨l₁, l₂, hsplit, hpe, hall⟩ := ih e h
      refine ⟨a :: l₁, l₂, by rw [hsplit, List.cons_append], hpe, ?_⟩
      intro x hx
      rcases List.mem_cons.mp hx with hx | hx
      · rw [hx]; exact hp
      · exact hall x hx
    · rw [List.find?_cons_of_pos _ hp] at h
      injection h with he
      exact ⟨[], t, by rw [he, List.nil_append], he ▸ hp, by intro x hx; simp at hx⟩

/-! ## Claim theorems -/

/-- Claim C1 (code bug evidence): for the stat group
`{group:"hitting", type:"season", splits:[]}` the rendering loop emits only
the title line — no sentinel "no data available" row and no table.  The
sentinel string exists in the source (line 490) but sits behind a
`stats_df.empty` check that is unreachable, because the whole table
section is skipped when the splits list is empty; the claimed behaviour
(emit one sentinel row) therefore does not happen.  No exception is raised
(the rendering is total). -/
theorem empty_splits_no_sentinel :
    render_stat_group "Aaron Judge" 2024 "English"
        ⟨some "hitting", some "season", []⟩ =
      [Display.text "**Aaron Judge** - 2024 Season Stats:"] ∧
    Display.text "No data available for this group." ∉
      render_stat_group "Aaron Judge" 2024 "English"
        ⟨some "hitting", some "season", []⟩ := by
  decide

/-- Claim C2 (counterexample): `translateStat("Stat", "Spanish")` does not
return a tabulated Spanish header — the key `"Stat"` is absent from
`translations_stats`, so the call returns the untranslated `"Stat"`. -/
theorem translate_stat_header_not_tabulated :
    get_translated_stat "Stat" "Spanish" = "Stat" ∧
    translations_stats.find? (fun kv => kv.1 == "Stat") = none := by
  decide

/-- Claim C2 (amended): `translateStat("Stat", lang)` returns `"Stat"` for
every language, including English and Spanish, via the identity fallback:
the header key `"Stat"` is not tabulated at all. -/
theorem translate_stat_header_fallback (lang : String) :
    get_translated_stat "Stat" lang = "Stat" := by
  show dictGet (dictGet translations_stats "Stat" []) lang "Stat" = "Stat"
  rw [show dictGet translations_stats "Stat" [] = [] from rfl]
  rfl

/-- Claim C3 (counterexample): on a detail record with every optional field
absent, the `Active Player` attribute renders `"No"`, not `"N/A"` — the
formatter derives a Yes/No string from the absent boolean instead of using
the "N/A" placeholder. -/
theorem key_attributes_active_not_na :
    (key_attributes emptyPlayerInfo).lookup "Active Player" =
      some (.str "No") ∧
    Value.str "No" ≠ Value.str "N/A" := by
  decide

/-- Claim C3 (amended): a detail record with every optional field absent
formats without fault; twelve of the thirteen attributes render "N/A"
(Birthplace as the triple "N/A, N/A, N/A"), while `Active Player` renders
"No". -/
theorem key_attributes_all_absent :
    key_attributes emptyPlayerInfo =
      [("Full Name", .str "N/A"),
       ("Primary Position", .str "N/A"),
       ("Jersey Number", .str "N/A"),
       ("Birth Date", .str "N/A"),
       ("Current Age", .str "N/A"),
       ("Birthplace", .str "N/A, N/A, N/A"),
       ("Height", .str "N/A"),
       ("Weight (lbs)", .str "N/A"),
       ("Active Player", .str "No"),
       ("MLB Debut Date", .str "N/A"),
       ("Bats", .str "N/A"),
       ("Throws", .str "N/A"),
       ("Nickname", .str "N/A")] := by
  decide

/-- Claim C5: resolving against a `None` roster or an empty roster yields
the empty-roster fault, and that fault is distinguishable from the
no-match fault for every query (the two messages always differ). -/
theorem empty_roster_fault_distinct (q : String) :
    search_player_by_name none q = (none, some emptyRosterMsg) ∧
    search_player_by_name (some []) q = (none, some emptyRosterMsg) ∧
    noMatchMsg q ≠ emptyRosterMsg :=
  ⟨rfl, rfl, noMatchMsg_ne_emptyRosterMsg q⟩

/-- Claim C7: flattening a stat split in which all six numeric counters are
present and reading the two-column (stat-name, value) table back recovers
every counter value unchanged (integer counters stay exact integers). -/
theorem stat_split_roundtrip (team pl : String) (g r h hr sb rbi : Int) :
    ((stats_two_columns
        [flattened_split ⟨some ⟨some team⟩, some ⟨some pl⟩,
          some ⟨some g, some r, some h, some hr, some sb, some rbi⟩⟩]
        "English").lookup "Games Played" = some (.int g)) ∧
    ((stats_two_columns
        [flattened_split ⟨some ⟨some team⟩, some ⟨some pl⟩,
          some ⟨some g, some r, some h, some hr, some sb, some rbi⟩⟩]
        "English").lookup "Runs" = some (.int r)) ∧
    ((stats_two_columns
        [flattened_split ⟨some ⟨some team⟩, some ⟨some pl⟩,
          some ⟨some g, some r, some h, some hr, some sb, some rbi⟩⟩]
        "English").lookup "Hits" = some (.int h)) ∧
    ((stats_two_columns
        [flattened_split ⟨some ⟨some team⟩, some ⟨some pl⟩,
          some ⟨some g, some r, some h, some hr, some sb, some rbi⟩⟩]
        "English").lookup "Home Runs" = some (.int hr)) ∧
    ((stats_two_columns
        [flattened_split ⟨some ⟨some team⟩, some ⟨some pl⟩,
          some ⟨some g, some r, some h, some hr, some sb, some rbi⟩⟩]
        "English").lookup "Stolen Bases" = some (.int sb)) ∧
    ((stats_two_columns
        [flattened_split ⟨some ⟨some team⟩, some ⟨some pl⟩,
          some ⟨some g, some r, some h, some hr, some sb, some rbi⟩⟩]
        "English").lookup "RBI" = some (.int rbi)) :=
  ⟨rfl, rfl, rfl, rfl, rfl, rfl⟩

/-- Claim C8 (code bug evidence): `get_all_players(2023)` issues the same
URL as `get_all_players(2024)` — the f-string hardcodes `season=2024` with
no placeholder, so the `season` argument never reaches the query
parameter. -/
theorem get_all_players_ignores_season :
    get_all_players_url 2023 =
      "https://statsapi.mlb.com/api/v1/sports/1/players?season=2024" ∧
    ∀ s₁ s₂ : Nat, get_all_players_url s₁ = get_all_players_url s₂ :=
  ⟨rfl, fun _ _ => rfl⟩

/-- Claim C9: for every key absent from the attribute translation table and
every language, `translate_attribute` returns the key unchanged (identity
fallback; the function is total, so it never raises). -/
theorem translate_attribute_missing_key_identity (k lang : String)
    (h : ∀ e ∈ translations, e.1 ≠ k) :
    translate_attribute k lang = k := by
  have hf : translations.find? (fun kv => kv.1 == k) = none := by
    rw [List.find?_eq_none]
    intro kv hkv
    simp [h kv hkv]
  unfold translate_attribute dictGet
  rw [hf]
  rfl

/-- Witness for C9 at the concrete absent key `"Nick"` and the unsupported
language `"Klingon"`. -/
theorem translate_attribute_missing_key_identity_witness :
    translate_attribute "Nick" "Klingon" = "Nick" :=
  translate_attribute_missing_key_identity "Nick" "Klingon" (by decide)

/-- Claim C4 (counterexample): the resolver matches the *trimmed* query,
not the raw one.  With roster `[{id:1, fullName:"Aaron Judge"}]` and query
`"judge "` (trailing space), the code resolves to id 1 even though the raw
query is not a case-insensitive substring of `"Aaron Judge"` — so the
claim's description of the match relation fails as stated. -/
theorem search_matches_trimmed_not_raw :
    search_player_by_name (some [⟨1, "Aaron Judge"⟩]) "judge " =
      (some 1, none) ∧
    listHasSub (lowerChars "judge ") (lowerChars "Aaron Judge") = false := by
  decide

/-- Claim C4 (amended): for every non-empty roster and every query, the
resolver never faults on pattern characters (matching is literal substring
containment of the escaped query) and performs a case-insensitive
substring containment test of the *trimmed* (escaped) query against each
entry's fullName, returning the id of the first matching entry in roster
order; when no entry matches, no id is returned. -/
theorem search_first_match_trimmed (R : List RosterEntry) (q : String)
    (hR : R ≠ []) :
    ((search_player_by_name (some R) q).1 = none →
      ∀ e ∈ R, nameMatches e.fullName q = false) ∧
    ∀ i, (search_player_by_name (some R) q).1 = some i →
      ∃ l₁ e l₂, R = l₁ ++ e :: l₂ ∧ e.id = i ∧
        nameMatches e.fullName q = true ∧
        ∀ x ∈ l₁, nameMatches x.fullName q = false := by
  have hne : R.isEmpty = false := by
    cases R with
    | nil => exact absurd rfl hR
    | cons a t => rfl
  cases hf : R.find? (fun e => nameMatches e.fullName q) with
  | none =>
    have hres : search_player_by_name (some R) q =
        (none, some (noMatchMsg q)) := by
      simp [search_player_by_name, hne, hf]
    constructor
    · intro _ e he
      have := List.find?_eq_none.mp hf e he
      simpa using this
    · intro i hi
      rw [hres] at hi
      simp at hi
  | some e =>
    have hres : search_player_by_name (some R) q = (some e.id, none) := by
      simp [search_player_by_name, hne, hf]
    constructor
    · intro hcontra
      rw [hres] at hcontra
      simp at hcontra
    · intro i hi
      rw [hres] at hi
      obtain ⟨l₁, l₂, hsplit, hpe, hall⟩ := find?_first _ R e hf
      exact ⟨l₁, e, l₂, hsplit, by simpa using hi, hpe, hall⟩

/-- Witness for C4 at the claim's scenario: roster
`[{id:1, fullName:"Aaron Judge"}]`, case-mismatched query
`"aaron judge"` — the resolver returns id 1 and the first-match
decomposition holds. -/
theorem search_first_match_trimmed_witness :
    (search_player_by_name (some [⟨1, "Aaron Judge"⟩]) "aaron judge").1 =
      some 1 ∧
    ∃ l₁ e l₂, ([⟨1, "Aaron Judge"⟩] : List RosterEntry) = l₁ ++ e :: l₂ ∧
      e.id = 1 ∧ nameMatches e.fullName "aaron judge" = true ∧
      ∀ x ∈ l₁, nameMatches x.fullName "aaron judge" = false :=
  ⟨by decide,
   (search_first_match_trimmed [⟨1, "Aaron Judge"⟩] "aaron judge"
      (by decide)).2 1 (by decide)⟩

/-- Claim C6 (counterexample): with a successful name extraction but a
failed roster fetch, the analyze action has already performed the
identification write — persistence is not deferred until all upstream
steps succeed. -/
theorem analyze_writes_before_roster_fault :
    (analyze "user@example.com" "English"
        ⟨some "Aaron Judge", none, fun _ => none⟩).2 =
      .rosterUnavailable ∧
    (analyze "user@example.com" "English"
        ⟨some "Aaron Judge", none, fun _ => none⟩).1 =
      [⟨"user@example.com", "Aaron Judge", "English"⟩] := by
  constructor
  · rfl
  · rfl

/-- Claim C6 (amended): the identification event is persisted as soon as a
non-empty player name has been extracted, *before* the roster fetch,
player resolution and detail fetch; whatever the outcome of those later
stages (including faults), exactly one identification write has been
performed.  Only a recognition failure prevents the write. -/
theorem analyze_write_after_recognition_only (email language : String)
    (env : AnalysisEnv) (g : String) (hg : env.gemini_response = some g)
    (hne : g ≠ "") :
    (analyze email language env).1 = [⟨email, g, language⟩] := by
  simp only [analyze, hg]
  rw [if_neg hne]
  split
  · rfl
  · split
    · rfl
    · split
      · split <;> rfl
      · rfl

/-- Witness for C6 (amended) at a concrete environment whose roster fetch
fails: the identification write is still performed. -/
theorem analyze_write_after_recognition_only_witness :
    (analyze "user@example.com" "English"
        ⟨some "Aaron Judge", none, fun _ => none⟩).1 =
      [⟨"user@example.com", "Aaron Judge", "English"⟩] :=
  analyze_write_after_recognition_only "user@example.com" "English"
    ⟨some "Aaron Judge", none, fun _ => none⟩ "Aaron Judge" rfl (by decide)

/-- Claim C10 (counterexample): `resolve(R, q)` and `resolve(R, trim(q))`
do not return the same result: when no entry matches, the fault message
interpolates the original untrimmed query, so the two results differ for
the padded query `" zzz "`. -/
theorem search_result_message_not_trim_invariant :
    pyStrip " zzz " = "zzz" ∧
    search_player_by_name (some [⟨1, "Aaron Judge"⟩]) " zzz " ≠
      search_player_by_name (some [⟨1, "Aaron Judge"⟩]) (pyStrip " zzz ") := by
  decide

/-- Claim C10 (amended): the resolver strips the query before matching, so
`resolve(R, q)` and `resolve(R, trim(q))` agree on the *match outcome* —
same resolved id, same presence of a fault, and same classification as the
empty-roster fault; only the text of the no-match message (which embeds
the original query) can differ. -/
theorem search_trim_match_invariant (players : Option (List RosterEntry))
    (q : String) :
    (search_player_by_name players q).1 =
      (search_player_by_name players (pyStrip q)).1 ∧
    ((search_player_by_name players q).2 = none ↔
      (search_player_by_name players (pyStrip q)).2 = none) ∧
    ((search_player_by_name players q).2 = some emptyRosterMsg ↔
      (search_player_by_name players (pyStrip q)).2 = some emptyRosterMsg) := by
  have hmatch : (fun e : RosterEntry => nameMatches e.fullName q)
      = (fun e => nameMatches e.fullName (pyStrip q)) := by
    funext e
    unfold nameMatches
    rw [pyStrip_idem]
  cases players with
  | none => exact ⟨rfl, Iff.rfl, Iff.rfl⟩
  | some l =>
    cases hl : l.isEmpty
    · cases hf : l.find? (fun e => nameMatches e.fullName q) with
      | none =>
        have hf' : l.find? (fun e => nameMatches e.fullName (pyStrip q)) =
            none := by rw [← hmatch]; exact hf
        have h1 : search_player_by_name (some l) q =
            (none, some (noMatchMsg q)) := by
          simp [search_player_by_name, hl, hf]
        have h2 : search_player_by_name (some l) (pyStrip q) =
            (none, some (noMatchMsg (pyStrip q))) := by
          simp [search_player_by_name, hl, hf']
        rw [h1, h2]
        refine ⟨rfl, by simp, ?_⟩
        exact iff_of_false
          (by simpa using noMatchMsg_ne_emptyRosterMsg q)
          (by simpa using noMatchMsg_ne_emptyRosterMsg (pyStrip q))
      | some e =>
        have hf' : l.find? (fun e => nameMatches e.fullName (pyStrip q)) =
            some e := by rw [← hmatch]; exact hf
        have h1 : search_player_by_name (some l) q = (some e.id, none) := by
          simp [search_player_by_name, hl, hf]
        have h2 : search_player_by_name (some l) (pyStrip q) =
            (some e.id, none) := by
          simp [search_player_by_name, hl, hf']
        rw [h1, h2]
        exact ⟨rfl, Iff.rfl, Iff.rfl⟩
    · have h1 : search_player_by_name (some l) q =
          (none, some emptyRosterMsg) := by
        simp [search_player_by_name, hl]
      have h2 : search_player_by_name (some l) (pyStrip q) =
          (none, some emptyRosterMsg) := by
        simp [search_player_by_name, hl]
      rw [h1, h2]
      exact ⟨rfl, Iff.rfl, Iff.rfl⟩
